import Mathlib

/-!
Verification of the IKY identity-resolution core: the similarity scorer
(`server/src/services/fingerprint-matcher.js`, class `FingerprintMatcher`)
and the resolver orchestration (`server/src/services/identity-service.js`,
class `IdentityService`).

Conventions of the embedding:
* JS `undefined`/`null` field values are `none`; present values are `some _`.
  The service normalizes both absent markers through one code path, so a
  single absent marker is faithful.
* JS numbers that the scorer compares (screen metrics, hardware metrics,
  pixel ratio) are embedded as `ℚ`; the scorer only tests equality,
  truthiness and one absolute-difference bound on them.
* JS truthiness (`!value`) on an optional string is `none` or `""`;
  on an optional number it is `none` or `0`.
* The matcher is constructed with the default environment configuration:
  weights 0.30 / 0.25 / 0.20 / 0.15 / 0.10 and threshold 0.75
  (`fingerprint-matcher.js` lines 78-89).
* All embedded functions are total, mirroring the fact that the scorer's
  code paths contain no `throw`.
-/

namespace IKY

/-- A device profile record as the matcher consumes it: the columns selected
from `user_device_profiles` / the output of `_deviceInfoToProfile`. -/
structure Device where
  canvas_fingerprint : Option String := none
  audio_fingerprint : Option String := none
  webgl_fingerprint : Option String := none
  user_agent : Option String := none
  platform : Option String := none
  language : Option String := none
  timezone : Option String := none
  screen_width : Option ℚ := none
  screen_height : Option ℚ := none
  screen_color_depth : Option ℚ := none
  screen_pixel_ratio : Option ℚ := none
  hardware_concurrency : Option ℚ := none
  device_memory : Option ℚ := none
  fonts_list : Option (List String) := none
  plugins_list : Option (List String) := none
  ip_address : Option String := none
  country : Option String := none
  city : Option String := none
  deriving DecidableEq, Repr

/-- JS truthiness of an optional string: `!v` is true for `undefined`, `null`
and the empty string. -/
def truthyStr : Option String → Bool
  | none => false
  | some s => s ≠ ""

/-- JS truthiness of an optional number: `!v` is true for `undefined`, `null`
and `0`. -/
def truthyNum : Option ℚ → Bool
  | none => false
  | some q => q ≠ 0

/-- The numeric value of a boolean comparison, `b ? 1 : 0`. -/
def eqIndicator (b : Bool) : ℚ :=
  if b then 1 else 0

/-- One guarded accumulation step of `_compareHardware` / `_compareScreen`:
`if (present) { score += equal ? 1 : 0; count++; }` over the running
`(score, count)` pair. -/
def accAttr (present equal : Bool) (acc : ℚ × ℚ) : ℚ × ℚ :=
  if present then (acc.1 + eqIndicator equal, acc.2 + 1) else acc

/-- `_compareExact` (fingerprint-matcher.js lines 140-143): 0 when either
side is falsy, else the exact-equality indicator. -/
def compareExact (value1 value2 : Option String) : ℚ :=
  if !truthyStr value1 || !truthyStr value2 then 0
  else if value1 = value2 then 1 else 0

/-- `_compareHardware` (lines 148-165): average of the equality indicators of
`hardware_concurrency` and `device_memory` over the attributes truthy on both
sides; 0 when neither is comparable. -/
def compareHardware (device1 device2 : Device) : ℚ :=
  let acc : ℚ × ℚ := (0, 0)
  let acc := accAttr (truthyNum device1.hardware_concurrency && truthyNum device2.hardware_concurrency)
    (device1.hardware_concurrency = device2.hardware_concurrency) acc
  let acc := accAttr (truthyNum device1.device_memory && truthyNum device2.device_memory)
    (device1.device_memory = device2.device_memory) acc
  if 0 < acc.2 then acc.1 / acc.2 else 0

/-- The pixel-ratio comparison of `_compareScreen` (lines 193-197): equal up
to an absolute difference strictly below 0.1. -/
def pixelRatioClose : Option ℚ → Option ℚ → Bool
  | some q1, some q2 => |q1 - q2| < 1/10
  | _, _ => false

/-- `_compareScreen` (lines 170-200): average of the equality indicators of
width, height, color depth and (tolerance 0.1) pixel ratio over the
attributes truthy on both sides; 0 when none is comparable. -/
def compareScreen (device1 device2 : Device) : ℚ :=
  let acc : ℚ × ℚ := (0, 0)
  let acc := accAttr (truthyNum device1.screen_width && truthyNum device2.screen_width)
    (device1.screen_width = device2.screen_width) acc
  let acc := accAttr (truthyNum device1.screen_height && truthyNum device2.screen_height)
    (device1.screen_height = device2.screen_height) acc
  let acc := accAttr (truthyNum device1.screen_color_depth && truthyNum device2.screen_color_depth)
    (device1.screen_color_depth = device2.screen_color_depth) acc
  let acc := accAttr (truthyNum device1.screen_pixel_ratio && truthyNum device2.screen_pixel_ratio)
    (pixelRatioClose device1.screen_pixel_ratio device2.screen_pixel_ratio) acc
  if 0 < acc.2 then acc.1 / acc.2 else 0

/-- The distinct elements of a list, modelling `new Set(list)`. A JS `Set`
keeps first occurrences in insertion order while this keeps last occurrences,
but `_compareFonts` only reads set membership and set sizes, which agree. -/
def distinctList : List String → List String
  | [] => []
  | x :: rest =>
    let d := distinctList rest
    if x ∈ d then d else x :: d

/-- `_compareFonts` (lines 205-217): Jaccard similarity of the two font sets
(`intersection.size / union.size` over `new Set` deduplication), 0 when
either list is absent or empty. -/
def compareFonts : Option (List String) → Option (List String) → ℚ
  | some fonts1, some fonts2 =>
    if fonts1.length = 0 || fonts2.length = 0 then 0
    else
      let set1 := distinctList fonts1
      let set2 := distinctList fonts2
      let inter := set1.filter (fun x => x ∈ set2)
      let union := distinctList (set1 ++ set2)
      (inter.length : ℚ) / (union.length : ℚ)
  | _, _ => 0

/-- Default canvas weight, `FINGERPRINT_WEIGHT_CANVAS` fallback `0.30`. -/
def weightCanvas : ℚ := 3/10

/-- Default audio weight, fallback `0.25`. -/
def weightAudio : ℚ := 1/4

/-- Default hardware weight, fallback `0.20`. -/
def weightHardware : ℚ := 1/5

/-- Default screen weight, fallback `0.15`. -/
def weightScreen : ℚ := 3/20

/-- Default fonts weight, fallback `0.10`. -/
def weightFonts : ℚ := 1/10

/-- Default match threshold, `MATCH_CONFIDENCE_THRESHOLD` fallback `0.75`. -/
def matchThreshold : ℚ := 3/4

/-- Result of `calculateSimilarity`: the clamped total and the match flag.
The JS object also carries the per-dimension breakdown, recoverable here as
the individual `compare*` values. -/
structure SimilarityResult where
  totalScore : ℚ
  isMatch : Bool
  deriving DecidableEq, Repr

/-- `calculateSimilarity` (lines 94-135): weighted sum of the five dimension
scores; `totalScore` is clamped with `Math.min(·, 1.0)` while `isMatch`
compares the unclamped sum against the threshold. -/
def calculateSimilarity (device1 device2 : Device) : SimilarityResult :=
  let canvas := compareExact device1.canvas_fingerprint device2.canvas_fingerprint * weightCanvas
  let audio := compareExact device1.audio_fingerprint device2.audio_fingerprint * weightAudio
  let hardware := compareHardware device1 device2 * weightHardware
  let screen := compareScreen device1 device2 * weightScreen
  let fonts := compareFonts device1.fonts_list device2.fonts_list * weightFonts
  let totalScore := canvas + audio + hardware + screen + fonts
  { totalScore := min totalScore 1
    isMatch := decide (matchThreshold ≤ totalScore) }

/-- The raw (unclamped) weighted sum of `calculateSimilarity`. -/
def rawScore (device1 device2 : Device) : ℚ :=
  compareExact device1.canvas_fingerprint device2.canvas_fingerprint * weightCanvas
    + compareExact device1.audio_fingerprint device2.audio_fingerprint * weightAudio
    + compareHardware device1 device2 * weightHardware
    + compareScreen device1 device2 * weightScreen
    + compareFonts device1.fonts_list device2.fonts_list * weightFonts

/-- A fully populated sample device, as in the matcher's own unit tests. -/
def sampleDevice : Device :=
  { canvas_fingerprint := some "abc123"
    audio_fingerprint := some "def456"
    hardware_concurrency := some 8
    device_memory := some 16
    screen_width := some 1920
    screen_height := some 1080
    screen_color_depth := some 24
    screen_pixel_ratio := some 1
    fonts_list := some ["Arial", "Verdana", "Times"] }

/-- The maximal leading run of digits of a character list: the greedy
`(\d+)` capture. -/
def digitRun : List Char → List Char
  | [] => []
  | c :: rest => if c.isDigit then c :: digitRun rest else []

/-- Whether literal pattern `pat` followed by at least one digit matches at
the head of `s`; on success the captured digit run. -/
def matchVersionAt (pat s : List Char) : Option (List Char) :=
  if pat.isPrefixOf s then
    match s.drop pat.length with
    | c :: rest => if c.isDigit then some (digitRun (c :: rest)) else none
    | [] => none
  else none

/-- Leftmost match of `pat` followed by digits anywhere in `s`: the capture
of the JS `userAgent.match(/pat\/(\d+)/)` call. -/
def findVersion (pat : List Char) : List Char → Option (List Char)
  | [] => none
  | c :: rest =>
    match matchVersionAt pat (c :: rest) with
    | some version => some version
    | none => findVersion pat rest

/-- The ordered browser signatures of `_extractBrowserInfo`
(fingerprint-matcher.js lines 320-326). -/
def browserPatterns : List (String × String) :=
  [("Chrome", "Chrome/"), ("Firefox", "Firefox/"), ("Safari", "Safari/"),
    ("Edge", "Edg/"), ("Opera", "OPR/")]

/-- The pattern loop of `_extractBrowserInfo` (lines 328-335): first
signature that matches anywhere in the user agent wins. -/
def extractBrowserLoop (userAgent : List Char) : List (String × String) → String × String
  | [] => ("Unknown", "0")
  | (name, pat) :: rest =>
    match findVersion pat.toList userAgent with
    | some version => (name, String.mk version)
    | none => extractBrowserLoop userAgent rest

/-- `_extractBrowserInfo` (lines 319-336): browser name and major version
from a user-agent string, `("Unknown", "0")` when no signature matches. -/
def extractBrowserInfo (userAgent : String) : String × String :=
  extractBrowserLoop userAgent.toList browserPatterns

/-- `_isBrowserUpdate` (lines 305-314): false when either user agent is
falsy; else same extracted name with a different extracted version. -/
def isBrowserUpdate (oldUA newUA : Option String) : Bool :=
  if !truthyStr oldUA || !truthyStr newUA then false
  else
    match oldUA, newUA with
    | some o, some n =>
      let oldBrowser := extractBrowserInfo o
      let newBrowser := extractBrowserInfo n
      oldBrowser.1 == newBrowser.1 && oldBrowser.2 != newBrowser.2
    | _, _ => false

/-- Result of `classifyChange`: severity, category and the similarity
confidence, with the JS string literals kept. -/
structure ChangeClassification where
  type : String
  category : String
  confidence : ℚ
  deriving DecidableEq, Repr

/-- `classifyChange` (lines 248-300): the priority cascade over strict
(`!==`, no presence guard) field comparisons. -/
def classifyChange (oldDevice newDevice : Device) : ChangeClassification :=
  let similarity := calculateSimilarity oldDevice newDevice
  let hasOSChange : Prop := oldDevice.platform ≠ newDevice.platform
  let hasHardwareChange : Prop :=
    oldDevice.hardware_concurrency ≠ newDevice.hardware_concurrency ∨
      oldDevice.device_memory ≠ newDevice.device_memory
  let hasScreenChange : Prop :=
    oldDevice.screen_width ≠ newDevice.screen_width ∨
      oldDevice.screen_height ≠ newDevice.screen_height
  if hasOSChange ∨ hasHardwareChange then
    { type := "major"
      category := if hasOSChange then "os_change" else "hardware_change"
      confidence := similarity.totalScore }
  else if hasScreenChange then
    { type := "minor", category := "screen_change", confidence := similarity.totalScore }
  else if isBrowserUpdate oldDevice.user_agent newDevice.user_agent then
    { type := "minor", category := "browser_update", confidence := similarity.totalScore }
  else if oldDevice.ip_address ≠ newDevice.ip_address then
    { type := "minor", category := "ip_change", confidence := similarity.totalScore }
  else
    { type := "minor", category := "environmental_change", confidence := similarity.totalScore }

/-- `detectChanges` (lines 341-380): the fixed scalar field list compared
with `!==`, then the two JSON-stringified list fields; names are pushed in
source order. -/
def detectChanges (oldDevice newDevice : Device) : List String :=
  (if oldDevice.user_agent ≠ newDevice.user_agent then ["user_agent"] else [])
    ++ (if oldDevice.platform ≠ newDevice.platform then ["platform"] else [])
    ++ (if oldDevice.language ≠ newDevice.language then ["language"] else [])
    ++ (if oldDevice.timezone ≠ newDevice.timezone then ["timezone"] else [])
    ++ (if oldDevice.screen_width ≠ newDevice.screen_width then ["screen_width"] else [])
    ++ (if oldDevice.screen_height ≠ newDevice.screen_height then ["screen_height"] else [])
    ++ (if oldDevice.screen_color_depth ≠ newDevice.screen_color_depth then ["screen_color_depth"] else [])
    ++ (if oldDevice.screen_pixel_ratio ≠ newDevice.screen_pixel_ratio then ["screen_pixel_ratio"] else [])
    ++ (if oldDevice.hardware_concurrency ≠ newDevice.hardware_concurrency then ["hardware_concurrency"] else [])
    ++ (if oldDevice.device_memory ≠ newDevice.device_memory then ["device_memory"] else [])
    ++ (if oldDevice.canvas_fingerprint ≠ newDevice.canvas_fingerprint then ["canvas_fingerprint"] else [])
    ++ (if oldDevice.audio_fingerprint ≠ newDevice.audio_fingerprint then ["audio_fingerprint"] else [])
    ++ (if oldDevice.webgl_fingerprint ≠ newDevice.webgl_fingerprint then ["webgl_fingerprint"] else [])
    ++ (if oldDevice.ip_address ≠ newDevice.ip_address then ["ip_address"] else [])
    ++ (if oldDevice.country ≠ newDevice.country then ["country"] else [])
    ++ (if oldDevice.city ≠ newDevice.city then ["city"] else [])
    ++ (if oldDevice.fonts_list ≠ newDevice.fonts_list then ["fonts_list"] else [])
    ++ (if oldDevice.plugins_list ≠ newDevice.plugins_list then ["plugins_list"] else [])

/-- An entry of `findBestMatch`'s running best: the candidate and its
similarity against the target. -/
structure BestMatch where
  device : Device
  similarity : SimilarityResult
  deriving DecidableEq, Repr

/-- The `for` loop of `findBestMatch` (lines 227-240): running
`(bestMatch, bestScore)` accumulator, updated only on a strictly higher
`totalScore`. -/
def bestLoop (targetDevice : Device) :
    List Device → Option BestMatch → ℚ → Option BestMatch × ℚ
  | [], bestMatch, bestScore => (bestMatch, bestScore)
  | candidate :: rest, bestMatch, bestScore =>
    let similarity := calculateSimilarity targetDevice candidate
    if bestScore < similarity.totalScore then
      bestLoop targetDevice rest (some { device := candidate, similarity }) similarity.totalScore
    else
      bestLoop targetDevice rest bestMatch bestScore

/-- `findBestMatch` (lines 222-243): none on an empty candidate list; else
the loop's best, returned only when its `isMatch` holds. -/
def findBestMatch (targetDevice : Device) (candidateDevices : List Device) : Option BestMatch :=
  if candidateDevices.length = 0 then none
  else
    match (bestLoop targetDevice candidateDevices none 0).1 with
    | some bestMatch => if bestMatch.similarity.isMatch then some bestMatch else none
    | none => none

/-- A candidate row as `_identifyByUUID` / `_identifyByFingerprint` select
it: the owning identity, the row's session id, and its device columns
(flattened in SQL, grouped here in `profile`). -/
structure ProfileRow where
  user_identity_id : Nat
  device_session_id : Nat
  profile : Device
  deriving DecidableEq, Repr

/-- The `findBestMatch` loop applied at row shape, as `_identifyByFingerprint`
calls it (the duck-typed JS function reads only the device columns). -/
def bestLoopRow (targetDevice : Device) :
    List ProfileRow → Option (ProfileRow × SimilarityResult) → ℚ →
      Option (ProfileRow × SimilarityResult) × ℚ
  | [], best, bestScore => (best, bestScore)
  | candidate :: rest, best, bestScore =>
    let similarity := calculateSimilarity targetDevice candidate.profile
    if bestScore < similarity.totalScore then
      bestLoopRow targetDevice rest (some (candidate, similarity)) similarity.totalScore
    else
      bestLoopRow targetDevice rest best bestScore

/-- `findBestMatch` over rows (same code as `findBestMatch`, at the row
shape `_identifyByFingerprint` passes). -/
def findBestMatchRow (targetDevice : Device) (rows : List ProfileRow) :
    Option (ProfileRow × SimilarityResult) :=
  if rows.length = 0 then none
  else
    match (bestLoopRow targetDevice rows none 0).1 with
    | some best => if best.2.isMatch then some best else none
    | none => none

/-- `_identifyByFingerprint` (identity-service.js lines 172-222) after the
candidate query: none when no row shared a hash, else the best-scoring row
with its totalScore as confidence, none when the best fails `isMatch`. -/
def identifyByFingerprint (targetDevice : Device) (rows : List ProfileRow) :
    Option (ProfileRow × ℚ) :=
  if rows.length = 0 then none
  else
    match findBestMatchRow targetDevice rows with
    | some best => some (best.1, best.2.totalScore)
    | none => none

/-- The change payload handed to `_recordDeviceChange`: exactly the keys its
INSERT reads. In the recovery path (identify, lines 85-94) the JS object
literal carries no `changeCategory` key, so that column is inserted null. -/
structure ChangeInfo where
  changeType : String
  changeCategory : Option String
  changedFields : List String
  confidence : ℚ
  deriving DecidableEq, Repr

/-- Result of `_detectDeviceChange` (identity-service.js lines 227-242),
instrumented: `classifyInvoked` records that line 230 evaluates
`classifyChange` unconditionally, before the changed-fields list is even
computed, and its output populates `changeType` / `changeCategory` /
`confidence` regardless of whether anything changed. -/
structure DetectionResult where
  hasChanged : Bool
  changeType : String
  changeCategory : Option String
  changedFields : List String
  confidence : ℚ
  classifyInvoked : Bool
  deriving DecidableEq, Repr

/-- `_detectDeviceChange` (lines 227-242). -/
def detectDeviceChange (currentDevice newDevice : Device) : DetectionResult :=
  let changeClassification := classifyChange currentDevice newDevice
  let changedFields := detectChanges currentDevice newDevice
  { hasChanged := decide (0 < changedFields.length)
    changeType := changeClassification.type
    changeCategory := some changeClassification.category
    changedFields := changedFields
    confidence := changeClassification.confidence
    classifyInvoked := true }

/-- A `device_change_history` row as `_recordDeviceChange` (lines 444-466)
inserts it. -/
structure ChangeEventRecord where
  change_type : String
  change_category : Option String
  changed_fields : List String
  match_confidence : ℚ
  recovery_method : String
  deriving DecidableEq, Repr

/-- `_recordDeviceChange`'s INSERT payload from its `changeDetection`
argument. -/
def recordDeviceChange (info : ChangeInfo) : ChangeEventRecord :=
  { change_type := info.changeType
    change_category := info.changeCategory
    changed_fields := info.changedFields
    match_confidence := info.confidence
    recovery_method := "device_change" }

/-- One persistence effect of `identify`, in issue order. `createNewUser`
stands for the whole `_createNewUser` transaction (lines 247-341, one
BEGIN/COMMIT unit). -/
inductive Effect where
  | createSession (userId : Nat) (newDevice : Device)
  | recordChange (userId newSessionId : Nat) (previousSessionId : Option Nat)
      (event : ChangeEventRecord)
  | updateSession (sessionId : Nat) (newDevice : Device)
  | updateLastSeen (userId : Nat)
  | logMatch (status : String) (method : Option String) (confidence : ℚ)
  | createNewUser (newDevice : Device)
  deriving DecidableEq, Repr

/-- The object `identify` resolves with. -/
structure IdentifyResult where
  user_id : Nat
  session_id : Nat
  status : String
  confidence : ℚ
  is_device_changed : Bool
  change_type : Option String := none
  deriving DecidableEq, Repr

/-- The happy path of `identify` (identity-service.js lines 17-122),
parameterized by the two lookup replies (external SQL queries) and by the
ids the inserts return: the resolution object and the persistence effects
in issue order. -/
def identifyModel (uuidMatch : Option ProfileRow) (fpCandidates : List ProfileRow)
    (newDevice : Device) (newSessionId newUserId : Nat) : IdentifyResult × List Effect :=
  match uuidMatch with
  | some found =>
    let changeDetection := detectDeviceChange found.profile newDevice
    if changeDetection.hasChanged then
      ({ user_id := found.user_identity_id
         session_id := newSessionId
         status := "recognized"
         confidence := 1
         is_device_changed := true
         change_type := some changeDetection.changeType },
        [Effect.createSession found.user_identity_id newDevice,
          Effect.recordChange found.user_identity_id newSessionId
            (some found.device_session_id)
            (recordDeviceChange
              { changeType := changeDetection.changeType
                changeCategory := changeDetection.changeCategory
                changedFields := changeDetection.changedFields
                confidence := changeDetection.confidence }),
          Effect.updateLastSeen found.user_identity_id,
          Effect.logMatch "recognized" (some "uuid_direct") 1])
    else
      ({ user_id := found.user_identity_id
         session_id := found.device_session_id
         status := "recognized"
         confidence := 1
         is_device_changed := false },
        [Effect.updateSession found.device_session_id newDevice,
          Effect.updateLastSeen found.user_identity_id,
          Effect.logMatch "recognized" (some "uuid_direct") 1])
  | none =>
    match identifyByFingerprint newDevice fpCandidates with
    | some (matched, confidence) =>
      ({ user_id := matched.user_identity_id
         session_id := newSessionId
         status := "recovered"
         confidence := confidence
         is_device_changed := true
         change_type := some "device_reset" },
        [Effect.createSession matched.user_identity_id newDevice,
          Effect.recordChange matched.user_identity_id newSessionId
            (some matched.device_session_id)
            (recordDeviceChange
              { changeType := "device_reset"
                changeCategory := none
                changedFields := ["client_uuid"]
                confidence := confidence }),
          Effect.updateLastSeen matched.user_identity_id,
          Effect.logMatch "recovered" (some "fingerprint_match") confidence])
    | none =>
      ({ user_id := newUserId
         session_id := newSessionId
         status := "new"
         confidence := 1
         is_device_changed := false },
        [Effect.createNewUser newDevice,
          Effect.logMatch "new" (some "new_user") 1])

/-- Persisted state of one Identity: its device profiles as
(session id, is_current) pairs, the session ids its change-history rows
reference, and the session counter. -/
structure IdentityState where
  profiles : List (Nat × Bool)
  changeEvents : List Nat
  totalSessions : Nat
  deriving DecidableEq, Repr

/-- The four writes of the supersede path in issue order.
`_createDeviceSession` (lines 346-413) issues `clearCurrent`,
`insertProfile` and `updateCounters` as three separate auto-committed
`query` calls with no surrounding transaction (unlike `_createNewUser`,
which uses BEGIN/COMMIT on one client), and `identify` then issues
`appendChange` (`_recordDeviceChange`, lines 444-466) as a fourth. -/
inductive SupersedeStep where
  | clearCurrent
  | insertProfile
  | updateCounters
  | appendChange
  deriving DecidableEq, Repr

/-- Effect of one auto-committed supersede write on the Identity's state. -/
def applySupersedeStep (newSessionId : Nat) (s : IdentityState) :
    SupersedeStep → IdentityState
  | .clearCurrent => { s with profiles := s.profiles.map (fun p => (p.1, false)) }
  | .insertProfile => { s with profiles := s.profiles ++ [(newSessionId, true)] }
  | .updateCounters => { s with totalSessions := s.totalSessions + 1 }
  | .appendChange => { s with changeEvents := s.changeEvents ++ [newSessionId] }

/-- The supersede write sequence as the code issues it. -/
def supersedeSteps : List SupersedeStep :=
  [SupersedeStep.clearCurrent, SupersedeStep.insertProfile,
    SupersedeStep.updateCounters, SupersedeStep.appendChange]

/-- Run a (possibly crash-truncated) prefix of the supersede writes. -/
def runSupersede (newSessionId : Nat) (s : IdentityState)
    (steps : List SupersedeStep) : IdentityState :=
  steps.foldl (applySupersedeStep newSessionId) s

/-- The invariant the atomicity claim protects: every stored profile has a
corresponding change-history record. -/
def everyProfileRecorded (s : IdentityState) : Prop :=
  ∀ p ∈ s.profiles, p.1 ∈ s.changeEvents

/-- The try/catch of `identify` (lines 17-129) under failure injection:
`body` is the outcome of the guarded steps, `failLog` the outcome of the
catch block's `await this._logMatching(..., 'failed', ...)` call (lines
123-128, which has no inner try/catch; `_logMatching`'s own `query` rethrows
on error). When the body throws, the catch awaits the failed-status log
first: if that write itself rejects, its error propagates out of the catch
and the `throw error` of the original error on line 128 is never reached. -/
def identifyTryCatch (body : Except String (IdentifyResult × List Effect))
    (failLog : Except String Unit) : Except String (IdentifyResult × List Effect) :=
  match body with
  | Except.ok r => Except.ok r
  | Except.error e =>
    match failLog with
    | Except.ok _ => Except.error e
    | Except.error logError => Except.error logError

/-- Every field the scorer reads is absent. -/
def scoredFieldsMissing (d : Device) : Prop :=
  d.canvas_fingerprint = none ∧ d.audio_fingerprint = none ∧
    d.hardware_concurrency = none ∧ d.device_memory = none ∧
    d.screen_width = none ∧ d.screen_height = none ∧
    d.screen_color_depth = none ∧ d.screen_pixel_ratio = none ∧
    d.fonts_list = none

/-- The all-absent device record. -/
def emptyDevice : Device := {}

/-- A device engineered to score exactly 0.75 against itself: canvas, audio
and hardware dimensions fully matching (0.30 + 0.25 + 0.20), screen and
fonts missing. -/
def thresholdDevice : Device :=
  { canvas_fingerprint := some "c0ffee"
    audio_fingerprint := some "a0dd10"
    hardware_concurrency := some 8
    device_memory := some 8 }

/-- `sampleDevice` with its hardware concurrency absent (falsy) but its
device memory still present. -/
def partialHardwareDevice : Device :=
  { sampleDevice with hardware_concurrency := none }

/-- `sampleDevice` with an empty-string (falsy) canvas fingerprint. -/
def emptyCanvasDevice : Device :=
  { sampleDevice with canvas_fingerprint := some "" }

/-- A device scoring exactly 0.70 against itself: canvas, audio and screen
match (0.30 + 0.25 + 0.15), hardware and fonts missing. -/
def score70Device : Device :=
  { canvas_fingerprint := some "c0ffee"
    audio_fingerprint := some "a0dd10"
    screen_width := some 1920
    screen_height := some 1080
    screen_color_depth := some 24
    screen_pixel_ratio := some 2 }

/-- Previous record of a pair whose platform and screen both differ. -/
def osChangeOld : Device :=
  { platform := some "MacIntel", screen_width := some 1920, screen_height := some 1080 }

/-- Current record of a pair whose platform and screen both differ. -/
def osChangeNew : Device :=
  { platform := some "Win32", screen_width := some 1280, screen_height := some 720 }

/-- Previous record lacking device memory, all else as in `memoryGainNew`. -/
def memoryGainOld : Device :=
  { platform := some "Linux x86_64", hardware_concurrency := some 4 }

/-- Current record that carries a device memory value. -/
def memoryGainNew : Device :=
  { platform := some "Linux x86_64", hardware_concurrency := some 4, device_memory := some 8 }

/-- A stored profile row owned by identity 3, used in the recovery scenario. -/
def storedRow : ProfileRow :=
  { user_identity_id := 3, device_session_id := 30, profile := sampleDevice }

/-- A stored profile row owned by identity 1, used in the token-match
scenario. -/
def tokenRow : ProfileRow :=
  { user_identity_id := 1, device_session_id := 10, profile := sampleDevice }

/-- Identity state before a supersede: one current profile (session 1) with
its change record present. -/
def preSupersedeState : IdentityState :=
  { profiles := [(1, true)], changeEvents := [1], totalSessions := 1 }

/-! Helper lemmas about the scorer. -/

/-- The totalScore a candidate contributes in `findBestMatch`'s loop. -/
def scoreOf (targetDevice candidate : Device) : ℚ :=
  (calculateSimilarity targetDevice candidate).totalScore

theorem compareExact_mem (value1 value2 : Option String) :
    compareExact value1 value2 = 0 ∨ compareExact value1 value2 = 1 := by
  unfold compareExact
  split_ifs <;> simp

theorem compareExact_nonneg (value1 value2 : Option String) :
    0 ≤ compareExact value1 value2 := by
  rcases compareExact_mem value1 value2 with h | h <;> simp [h]

theorem compareExact_le_one (value1 value2 : Option String) :
    compareExact value1 value2 ≤ 1 := by
  rcases compareExact_mem value1 value2 with h | h <;> simp [h]

theorem eqIndicator_nonneg (b : Bool) : 0 ≤ eqIndicator b := by
  cases b <;> norm_num [eqIndicator]

theorem eqIndicator_le_one (b : Bool) : eqIndicator b ≤ 1 := by
  cases b <;> norm_num [eqIndicator]

theorem accAttr_spec (present equal : Bool) (acc : ℚ × ℚ)
    (h1 : 0 ≤ acc.1) (h2 : acc.1 ≤ acc.2) :
    0 ≤ (accAttr present equal acc).1 ∧
      (accAttr present equal acc).1 ≤ (accAttr present equal acc).2 := by
  cases present with
  | false => exact ⟨h1, h2⟩
  | true =>
    constructor
    · show 0 ≤ acc.1 + eqIndicator equal
      have := eqIndicator_nonneg equal
      linarith
    · show acc.1 + eqIndicator equal ≤ acc.2 + 1
      have := eqIndicator_le_one equal
      linarith

theorem ratio_bounds {s c : ℚ} (h0 : 0 ≤ s) (hsc : s ≤ c) :
    0 ≤ (if 0 < c then s / c else 0) ∧ (if 0 < c then s / c else 0) ≤ 1 := by
  split_ifs with hc
  · exact ⟨div_nonneg h0 (le_of_lt hc), (div_le_one hc).mpr hsc⟩
  · norm_num

theorem compareHardware_bounds (device1 device2 : Device) :
    0 ≤ compareHardware device1 device2 ∧ compareHardware device1 device2 ≤ 1 := by
  simp only [compareHardware]
  exact ratio_bounds
    (accAttr_spec _ _ _ (accAttr_spec _ _ _ (le_refl 0) (le_refl 0)).1
      (accAttr_spec _ _ _ (le_refl 0) (le_refl 0)).2).1
    (accAttr_spec _ _ _ (accAttr_spec _ _ _ (le_refl 0) (le_refl 0)).1
      (accAttr_spec _ _ _ (le_refl 0) (le_refl 0)).2).2

theorem compareScreen_bounds (device1 device2 : Device) :
    0 ≤ compareScreen device1 device2 ∧ compareScreen device1 device2 ≤ 1 := by
  simp only [compareScreen]
  have s1 := accAttr_spec (truthyNum device1.screen_width && truthyNum device2.screen_width)
    (device1.screen_width = device2.screen_width) ((0:ℚ), (0:ℚ)) (le_refl 0) (le_refl 0)
  have s2 := accAttr_spec (truthyNum device1.screen_height && truthyNum device2.screen_height)
    (device1.screen_height = device2.screen_height) _ s1.1 s1.2
  have s3 := accAttr_spec
    (truthyNum device1.screen_color_depth && truthyNum device2.screen_color_depth)
    (device1.screen_color_depth = device2.screen_color_depth) _ s2.1 s2.2
  have s4 := accAttr_spec
    (truthyNum device1.screen_pixel_ratio && truthyNum device2.screen_pixel_ratio)
    (pixelRatioClose device1.screen_pixel_ratio device2.screen_pixel_ratio) _ s3.1 s3.2
  exact ratio_bounds s4.1 s4.2

theorem distinctList_nodup (l : List String) : (distinctList l).Nodup := by
  induction l with
  | nil => exact List.nodup_nil
  | cons x rest ih =>
    simp only [distinctList]
    split_ifs with h
    · exact ih
    · exact List.Nodup.cons h ih

theorem mem_distinctList (l : List String) :
    ∀ x : String, x ∈ distinctList l ↔ x ∈ l := by
  induction l with
  | nil => intro x; simp [distinctList]
  | cons y rest ih =>
    intro x
    simp only [distinctList]
    split_ifs with h
    · rw [List.mem_cons, ih x]
      constructor
      · exact Or.inr
      · rintro (rfl | hx)
        · exact (ih x).mp h
        · exact hx
    · rw [List.mem_cons, List.mem_cons, ih x]

theorem compareFonts_bounds (fonts1 fonts2 : Option (List String)) :
    0 ≤ compareFonts fonts1 fonts2 ∧ compareFonts fonts1 fonts2 ≤ 1 := by
  rcases fonts1 with _ | f1
  · simp [compareFonts]
  rcases fonts2 with _ | f2
  · simp [compareFonts]
  simp only [compareFonts]
  split_ifs with h
  · norm_num
  · have hlen : ((distinctList f1).filter (fun x => x ∈ distinctList f2)).length
        ≤ (distinctList (distinctList f1 ++ distinctList f2)).length := by
      have h1 : ((distinctList f1).filter (fun x => x ∈ distinctList f2)).length
          ≤ (distinctList f1).length := List.length_filter_le _ _
      have h2 : (distinctList f1).length
          ≤ (distinctList (distinctList f1 ++ distinctList f2)).length := by
        have hsub : distinctList f1 ⊆ distinctList (distinctList f1 ++ distinctList f2) := by
          intro x hx
          rw [mem_distinctList]
          exact List.mem_append_left _ hx
        exact (List.subperm_of_subset (distinctList_nodup f1) hsub).length_le
      exact le_trans h1 h2
    rcases Nat.eq_zero_or_pos (distinctList (distinctList f1 ++ distinctList f2)).length
      with hz | hp
    · rw [hz]
      norm_num
    · have hpq : (0:ℚ) < ((distinctList (distinctList f1 ++ distinctList f2)).length : ℚ) := by
        exact_mod_cast hp
      constructor
      · positivity
      · rw [div_le_one hpq]
        exact_mod_cast hlen

theorem rawScore_nonneg (device1 device2 : Device) : 0 ≤ rawScore device1 device2 := by
  unfold rawScore weightCanvas weightAudio weightHardware weightScreen weightFonts
  have h1 := compareExact_nonneg device1.canvas_fingerprint device2.canvas_fingerprint
  have h2 := compareExact_nonneg device1.audio_fingerprint device2.audio_fingerprint
  have h3 := (compareHardware_bounds device1 device2).1
  have h4 := (compareScreen_bounds device1 device2).1
  have h5 := (compareFonts_bounds device1.fonts_list device2.fonts_list).1
  nlinarith

theorem rawScore_le_one (device1 device2 : Device) : rawScore device1 device2 ≤ 1 := by
  unfold rawScore weightCanvas weightAudio weightHardware weightScreen weightFonts
  have h1 := compareExact_le_one device1.canvas_fingerprint device2.canvas_fingerprint
  have h2 := compareExact_le_one device1.audio_fingerprint device2.audio_fingerprint
  have h3 := (compareHardware_bounds device1 device2).2
  have h4 := (compareScreen_bounds device1 device2).2
  have h5 := (compareFonts_bounds device1.fonts_list device2.fonts_list).2
  nlinarith

theorem calculateSimilarity_totalScore (device1 device2 : Device) :
    (calculateSimilarity device1 device2).totalScore = min (rawScore device1 device2) 1 := rfl

theorem calculateSimilarity_isMatch (device1 device2 : Device) :
    (calculateSimilarity device1 device2).isMatch
      = decide (matchThreshold ≤ rawScore device1 device2) := rfl

theorem isMatch_iff_threshold (device1 device2 : Device) :
    (calculateSimilarity device1 device2).isMatch = true
      ↔ matchThreshold ≤ (calculateSimilarity device1 device2).totalScore := by
  rw [calculateSimilarity_isMatch, calculateSimilarity_totalScore, decide_eq_true_iff,
    le_min_iff, matchThreshold]
  norm_num

theorem scoreOf_def (targetDevice candidate : Device) :
    scoreOf targetDevice candidate = (calculateSimilarity targetDevice candidate).totalScore :=
  rfl

theorem bestLoop_snd (targetDevice : Device) (candidates : List Device)
    (bestMatch : Option BestMatch) (bestScore : ℚ) :
    (bestLoop targetDevice candidates bestMatch bestScore).2
      = candidates.foldl (fun a c => max a (scoreOf targetDevice c)) bestScore := by
  induction candidates generalizing bestMatch bestScore with
  | nil => rfl
  | cons c rest ih =>
    simp only [bestLoop, ← scoreOf_def, List.foldl_cons]
    split_ifs with h
    · rw [ih, max_eq_right (le_of_lt h)]
    · rw [ih, max_eq_left (not_lt.mp h)]

theorem foldl_max_le_init (targetDevice : Device) (candidates : List Device) (a : ℚ) :
    a ≤ candidates.foldl (fun b c => max b (scoreOf targetDevice c)) a := by
  induction candidates generalizing a with
  | nil => exact le_refl a
  | cons c rest ih =>
    simp only [List.foldl_cons]
    exact le_trans (le_max_left a _) (ih _)

theorem foldl_max_le_mem (targetDevice : Device) (candidates : List Device) (a : ℚ) :
    ∀ c ∈ candidates, scoreOf targetDevice c
      ≤ candidates.foldl (fun b c => max b (scoreOf targetDevice c)) a := by
  induction candidates generalizing a with
  | nil => intro c hc; cases hc
  | cons c0 rest ih =>
    intro c hc
    simp only [List.foldl_cons]
    rcases List.mem_cons.mp hc with rfl | hc
    · exact le_trans (le_max_right a _) (foldl_max_le_init _ _ _)
    · exact ih _ c hc

theorem bestLoop_some_spec (targetDevice : Device) (candidates : List Device)
    (bestMatch : Option BestMatch) (bestScore : ℚ)
    (hinv : ∀ b, bestMatch = some b →
      b.similarity = calculateSimilarity targetDevice b.device ∧
        b.similarity.totalScore = bestScore) :
    ∀ b, (bestLoop targetDevice candidates bestMatch bestScore).1 = some b →
      (b.similarity = calculateSimilarity targetDevice b.device ∧
        b.similarity.totalScore = (bestLoop targetDevice candidates bestMatch bestScore).2) ∧
      (bestMatch = some b ∨
        ∃ pre post, candidates = pre ++ b.device :: post ∧
          bestScore < scoreOf targetDevice b.device ∧
          ∀ c ∈ pre, scoreOf targetDevice c < scoreOf targetDevice b.device) := by
  induction candidates generalizing bestMatch bestScore with
  | nil =>
    intro b hb
    exact ⟨⟨(hinv b hb).1, (hinv b hb).2⟩, Or.inl hb⟩
  | cons c rest ih =>
    intro b hb
    by_cases h : bestScore < (calculateSimilarity targetDevice c).totalScore
    · have hrw : bestLoop targetDevice (c :: rest) bestMatch bestScore
          = bestLoop targetDevice rest
            (some { device := c, similarity := calculateSimilarity targetDevice c })
            (calculateSimilarity targetDevice c).totalScore := by
        simp only [bestLoop, if_pos h]
      rw [hrw] at hb ⊢
      have hinv' : ∀ b',
          (some { device := c, similarity := calculateSimilarity targetDevice c } : Option BestMatch)
            = some b' →
          b'.similarity = calculateSimilarity targetDevice b'.device ∧
            b'.similarity.totalScore = (calculateSimilarity targetDevice c).totalScore := by
        rintro b' hb'
        obtain rfl := Option.some.inj hb'
        exact ⟨rfl, rfl⟩
      have hspec := ih _ _ hinv' b hb
      refine ⟨hspec.1, Or.inr ?_⟩
      rcases hspec.2 with heq | ⟨pre, post, hsplit, hgt, hpre⟩
      · obtain rfl := Option.some.inj heq
        exact ⟨[], rest, rfl, h, by intro c' hc'; cases hc'⟩
      · refine ⟨c :: pre, post, by rw [hsplit, List.cons_append], lt_trans h hgt, ?_⟩
        intro c' hc'
        rcases List.mem_cons.mp hc' with rfl | hc'
        · exact hgt
        · exact hpre c' hc'
    · have hrw : bestLoop targetDevice (c :: rest) bestMatch bestScore
          = bestLoop targetDevice rest bestMatch bestScore := by
        simp only [bestLoop, if_neg h]
      rw [hrw] at hb ⊢
      have hspec := ih _ _ hinv b hb
      refine ⟨hspec.1, ?_⟩
      rcases hspec.2 with heq | ⟨pre, post, hsplit, hgt, hpre⟩
      · exact Or.inl heq
      · refine Or.inr ⟨c :: pre, post, by rw [hsplit, List.cons_append], hgt, ?_⟩
        intro c' hc'
        rcases List.mem_cons.mp hc' with rfl | hc'
        · exact lt_of_le_of_lt (not_lt.mp h) hgt
        · exact hpre c' hc'

theorem findBestMatch_some (targetDevice : Device) (candidates : List Device) (b : BestMatch)
    (hb : findBestMatch targetDevice candidates = some b) :
    b.similarity = calculateSimilarity targetDevice b.device ∧
      b.similarity.isMatch = true ∧
      (∃ pre post, candidates = pre ++ b.device :: post ∧
        ∀ c ∈ pre, scoreOf targetDevice c < scoreOf targetDevice b.device) ∧
      (∀ c ∈ candidates, scoreOf targetDevice c ≤ scoreOf targetDevice b.device) := by
  unfold findBestMatch at hb
  by_cases hlen : candidates.length = 0
  · rw [if_pos hlen] at hb
    cases hb
  · rw [if_neg hlen] at hb
    cases hloop : (bestLoop targetDevice candidates none 0).1 with
    | none => rw [hloop] at hb; exact absurd hb (by simp)
    | some bm =>
      rw [hloop] at hb
      dsimp only at hb
      split_ifs at hb with hm
      · obtain rfl := Option.some.inj hb
        have hspec := bestLoop_some_spec targetDevice candidates none 0
          (by intro b' hb'; cases hb') bm hloop
        have hsim := hspec.1.1
        have hscore := hspec.1.2
        rcases hspec.2 with heq | ⟨pre, post, hsplit, _, hpre⟩
        · cases heq
        · refine ⟨hsim, hm, ⟨pre, post, hsplit, hpre⟩, ?_⟩
          intro c hc
          have hmax := foldl_max_le_mem targetDevice candidates 0 c hc
          rw [← bestLoop_snd targetDevice candidates none 0, ← hscore] at hmax
          have : scoreOf targetDevice bm.device = bm.similarity.totalScore := by
            rw [scoreOf, ← hsim]
          rw [this]
          exact hmax

theorem sampleDevice_self :
    calculateSimilarity sampleDevice sampleDevice = { totalScore := 1, isMatch := true } := by
  simp +decide only [calculateSimilarity, compareExact, compareHardware, compareScreen,
    compareFonts, truthyStr, truthyNum, accAttr, eqIndicator, pixelRatioClose, distinctList,
    sampleDevice, weightCanvas, weightAudio, weightHardware, weightScreen, weightFonts,
    matchThreshold]
  norm_num

theorem thresholdDevice_self :
    calculateSimilarity thresholdDevice thresholdDevice
      = { totalScore := 3/4, isMatch := true } := by
  simp +decide only [calculateSimilarity, compareExact, compareHardware, compareScreen,
    compareFonts, truthyStr, truthyNum, accAttr, eqIndicator, pixelRatioClose, distinctList,
    thresholdDevice, weightCanvas, weightAudio, weightHardware, weightScreen, weightFonts,
    matchThreshold]
  norm_num

theorem score70Device_self :
    calculateSimilarity score70Device score70Device
      = { totalScore := 7/10, isMatch := false } := by
  simp +decide only [calculateSimilarity, compareExact, compareHardware, compareScreen,
    compareFonts, truthyStr, truthyNum, accAttr, eqIndicator, pixelRatioClose, distinctList,
    score70Device, weightCanvas, weightAudio, weightHardware, weightScreen, weightFonts,
    matchThreshold]
  norm_num

theorem partialHardwareDevice_self :
    calculateSimilarity partialHardwareDevice partialHardwareDevice
      = { totalScore := 1, isMatch := true } := by
  simp +decide only [calculateSimilarity, compareExact, compareHardware, compareScreen,
    compareFonts, truthyStr, truthyNum, accAttr, eqIndicator, pixelRatioClose, distinctList,
    partialHardwareDevice, sampleDevice, weightCanvas, weightAudio, weightHardware,
    weightScreen, weightFonts, matchThreshold]
  norm_num

theorem bestLoopRow_sample :
    bestLoopRow sampleDevice [storedRow] none 0
      = (some (storedRow, { totalScore := 1, isMatch := true }), 1) := by
  simp only [bestLoopRow, storedRow, sampleDevice_self]
  norm_num

theorem findBestMatchRow_sample :
    findBestMatchRow sampleDevice [storedRow]
      = some (storedRow, { totalScore := 1, isMatch := true }) := by
  simp only [findBestMatchRow, bestLoopRow_sample]
  norm_num

theorem identifyByFingerprint_sample :
    identifyByFingerprint sampleDevice [storedRow] = some (storedRow, 1) := by
  simp only [identifyByFingerprint, findBestMatchRow_sample]
  norm_num

theorem findBestMatch_below_threshold (targetDevice : Device) (candidates : List Device)
    (hall : ∀ c ∈ candidates, scoreOf targetDevice c < matchThreshold) :
    findBestMatch targetDevice candidates = none := by
  cases hfb : findBestMatch targetDevice candidates with
  | none => rfl
  | some b =>
    exfalso
    obtain ⟨hsim, hmatch, ⟨pre, post, hsplit, _⟩, _⟩ := findBestMatch_some _ _ _ hfb
    have hmem : b.device ∈ candidates := by
      rw [hsplit]
      exact List.mem_append_right _ (List.mem_cons_self _ _)
    have hlt := hall _ hmem
    have hge := (isMatch_iff_threshold targetDevice b.device).mp (by rw [← hsim]; exact hmatch)
    rw [scoreOf, calculateSimilarity_totalScore] at hlt
    rw [calculateSimilarity_totalScore] at hge
    exact absurd hge (not_le.mpr hlt)

/-! Claim theorems. -/

/-- C1: for every pair of device records, `calculateSimilarity` returns a
totalScore equal to the weighted sum of the five sub-scores (canvas-hash
equality 0.30, audio-hash equality 0.25, hardware average 0.20, screen
average 0.15, font Jaccard 0.10) clamped to at most 1.0; each sub-score is 0
when its dimension is missing; and isMatch is true exactly when totalScore
is at least 0.75 — the threshold comparison is inclusive. -/
theorem claim1_weighted_sum_and_threshold (a b : Device) :
    (calculateSimilarity a b).totalScore
        = min (compareExact a.canvas_fingerprint b.canvas_fingerprint * (3/10)
            + compareExact a.audio_fingerprint b.audio_fingerprint * (1/4)
            + compareHardware a b * (1/5)
            + compareScreen a b * (3/20)
            + compareFonts a.fonts_list b.fonts_list * (1/10)) 1
      ∧ ((calculateSimilarity a b).isMatch = true
          ↔ 3/4 ≤ (calculateSimilarity a b).totalScore)
      ∧ (a.canvas_fingerprint = none →
          compareExact a.canvas_fingerprint b.canvas_fingerprint = 0)
      ∧ (b.audio_fingerprint = none →
          compareExact a.audio_fingerprint b.audio_fingerprint = 0)
      ∧ (a.hardware_concurrency = none → a.device_memory = none →
          compareHardware a b = 0)
      ∧ (a.screen_width = none → a.screen_height = none → a.screen_color_depth = none →
          a.screen_pixel_ratio = none → compareScreen a b = 0)
      ∧ (a.fonts_list = none → compareFonts a.fonts_list b.fonts_list = 0) := by
  refine ⟨rfl, isMatch_iff_threshold a b, ?_, ?_, ?_, ?_, ?_⟩
  · intro h
    simp [compareExact, truthyStr, h]
  · intro h
    simp [compareExact, truthyStr, h]
  · intro h1 h2
    norm_num [compareHardware, truthyNum, accAttr, h1, h2]
  · intro h1 h2 h3 h4
    norm_num [compareScreen, truthyNum, accAttr, h1, h2, h3, h4]
  · intro h
    rw [h]
    cases hf : b.fonts_list <;> simp [compareFonts]

/-- Witness for C1: the engineered pair scoring exactly 0.75 has isMatch
true (the comparison is ≥, not >), and the missing-dimension hypotheses are
discharged on the all-absent device. -/
theorem claim1_witness :
    (calculateSimilarity thresholdDevice thresholdDevice).totalScore = 3/4
      ∧ (calculateSimilarity thresholdDevice thresholdDevice).isMatch = true
      ∧ ((calculateSimilarity thresholdDevice thresholdDevice).isMatch = true
          ↔ 3/4 ≤ (calculateSimilarity thresholdDevice thresholdDevice).totalScore)
      ∧ emptyDevice.canvas_fingerprint = none
      ∧ compareExact emptyDevice.canvas_fingerprint emptyDevice.canvas_fingerprint = 0
      ∧ compareHardware emptyDevice emptyDevice = 0
      ∧ compareFonts emptyDevice.fonts_list emptyDevice.fonts_list = 0 := by
  refine ⟨?_, ?_, (claim1_weighted_sum_and_threshold thresholdDevice thresholdDevice).2.1,
    rfl,
    (claim1_weighted_sum_and_threshold emptyDevice emptyDevice).2.2.1 rfl,
    (claim1_weighted_sum_and_threshold emptyDevice emptyDevice).2.2.2.2.1 rfl rfl,
    (claim1_weighted_sum_and_threshold emptyDevice emptyDevice).2.2.2.2.2.2 rfl⟩
  · rw [thresholdDevice_self]
  · rw [thresholdDevice_self]

/-- C8: `calculateSimilarity` is embedded as a total function (its JS body
has no throw path — missing data only flows through falsy guards), and when
every scored field is missing on both sides it returns totalScore 0 and
isMatch false. -/
theorem claim8_all_missing_scores_zero (a b : Device)
    (ha : scoredFieldsMissing a) (hb : scoredFieldsMissing b) :
    (calculateSimilarity a b).totalScore = 0
      ∧ (calculateSimilarity a b).isMatch = false := by
  obtain ⟨ha1, ha2, ha3, ha4, ha5, ha6, ha7, ha8, ha9⟩ := ha
  have hc : compareExact a.canvas_fingerprint b.canvas_fingerprint = 0 := by
    simp [compareExact, truthyStr, ha1]
  have hau : compareExact a.audio_fingerprint b.audio_fingerprint = 0 := by
    simp [compareExact, truthyStr, ha2]
  have hhw : compareHardware a b = 0 := by
    norm_num [compareHardware, truthyNum, accAttr, ha3, ha4]
  have hsc : compareScreen a b = 0 := by
    norm_num [compareScreen, truthyNum, accAttr, ha5, ha6, ha7, ha8]
  have hf : compareFonts a.fonts_list b.fonts_list = 0 := by
    rw [ha9]
    cases hfb : b.fonts_list <;> simp [compareFonts]
  have hraw : rawScore a b = 0 := by
    unfold rawScore
    rw [hc, hau, hhw, hsc, hf]
    norm_num
  constructor
  · rw [calculateSimilarity_totalScore, hraw]
    norm_num
  · rw [calculateSimilarity_isMatch, hraw]
    simp only [matchThreshold, decide_eq_false_iff_not]
    norm_num

/-- Witness for C8 at the all-absent device. -/
theorem claim8_witness :
    scoredFieldsMissing emptyDevice
      ∧ (calculateSimilarity emptyDevice emptyDevice).totalScore = 0
      ∧ (calculateSimilarity emptyDevice emptyDevice).isMatch = false := by
  have hmiss : scoredFieldsMissing emptyDevice :=
    ⟨rfl, rfl, rfl, rfl, rfl, rfl, rfl, rfl, rfl⟩
  exact ⟨hmiss, (claim8_all_missing_scores_zero _ _ hmiss hmiss).1,
    (claim8_all_missing_scores_zero _ _ hmiss hmiss).2⟩

/-- C9 counterexample: a record identical to itself whose
hardware-concurrency field is absent (falsy) still reaches totalScore 1.0 —
a falsy attribute of the multi-attribute hardware dimension is dropped from
the average rather than scored 0, so "totalScore falls below 1.0 whenever
any scored field of x is falsy" fails at this input. -/
theorem claim9_counterexample :
    partialHardwareDevice.hardware_concurrency = none
      ∧ ¬ ((calculateSimilarity partialHardwareDevice partialHardwareDevice).totalScore < 1) := by
  refine ⟨rfl, ?_⟩
  rw [partialHardwareDevice_self]
  norm_num

/-- C9 (amended): falsy fields are treated as absent in each comparison.
For the single-field dimensions this zeroes the sub-score — two identical
empty-string canvases score 0, and an empty font list scores 0 against
anything — so an identical pair with a falsy canvas, falsy audio, or
empty/missing font list totals strictly below 1.0. (In the multi-attribute
hardware and screen dimensions a falsy attribute merely drops out of the
average, so totalScore can still reach 1.0; see the counterexample.) -/
theorem claim9_falsy_single_field_dimensions (x : Device)
    (h : truthyStr x.canvas_fingerprint = false
      ∨ truthyStr x.audio_fingerprint = false
      ∨ x.fonts_list = none ∨ x.fonts_list = some []) :
    compareExact (some "") (some "") = 0
      ∧ (∀ g, compareFonts (some []) g = 0)
      ∧ (calculateSimilarity x x).totalScore < 1 := by
  refine ⟨by simp [compareExact, truthyStr], ?_, ?_⟩
  · intro g
    cases g <;> simp [compareFonts]
  · have hcb := compareExact_le_one x.canvas_fingerprint x.canvas_fingerprint
    have hab := compareExact_le_one x.audio_fingerprint x.audio_fingerprint
    have hcb0 := compareExact_nonneg x.canvas_fingerprint x.canvas_fingerprint
    have hab0 := compareExact_nonneg x.audio_fingerprint x.audio_fingerprint
    have hh := compareHardware_bounds x x
    have hs := compareScreen_bounds x x
    have hf := compareFonts_bounds x.fonts_list x.fonts_list
    have hmin : (calculateSimilarity x x).totalScore ≤ rawScore x x := by
      rw [calculateSimilarity_totalScore]
      exact min_le_left _ _
    have hraw : rawScore x x < 1 := by
      rcases h with h | h | h | h
      · have hz : compareExact x.canvas_fingerprint x.canvas_fingerprint = 0 := by
          simp [compareExact, h]
        unfold rawScore weightCanvas weightAudio weightHardware weightScreen weightFonts
        rw [hz]
        linarith [hab, hab0, hh.1, hh.2, hs.1, hs.2, hf.1, hf.2]
      · have hz : compareExact x.audio_fingerprint x.audio_fingerprint = 0 := by
          simp [compareExact, h]
        unfold rawScore weightCanvas weightAudio weightHardware weightScreen weightFonts
        rw [hz]
        linarith [hcb, hcb0, hh.1, hh.2, hs.1, hs.2, hf.1, hf.2]
      · have hz : compareFonts x.fonts_list x.fonts_list = 0 := by
          rw [h]
          simp [compareFonts]
        unfold rawScore weightCanvas weightAudio weightHardware weightScreen weightFonts
        rw [hz]
        linarith [hcb, hcb0, hab, hab0, hh.1, hh.2, hs.1, hs.2]
      · have hz : compareFonts x.fonts_list x.fonts_list = 0 := by
          rw [h]
          simp [compareFonts]
        unfold rawScore weightCanvas weightAudio weightHardware weightScreen weightFonts
        rw [hz]
        linarith [hcb, hcb0, hab, hab0, hh.1, hh.2, hs.1, hs.2]
    linarith

/-- Witness for C9 (amended) at the empty-string-canvas device. -/
theorem claim9_witness :
    truthyStr emptyCanvasDevice.canvas_fingerprint = false
      ∧ (calculateSimilarity emptyCanvasDevice emptyCanvasDevice).totalScore < 1 :=
  ⟨rfl, (claim9_falsy_single_field_dimensions emptyCanvasDevice (Or.inl rfl)).2.2⟩

/-- C10: `classifyChange` compares its guard fields with strict disequality
and no presence guard, so device memory absent on the previous side and
present on the current side counts as differing: with platform and core
count unchanged, the pair classifies as major/hardware_change rather than
the environmental-change catch-all. -/
theorem claim10_absent_memory_is_hardware_change (od nd : Device) (m : ℚ)
    (hplat : od.platform = nd.platform)
    (hcc : od.hardware_concurrency = nd.hardware_concurrency)
    (hmem : od.device_memory = none) (hmem' : nd.device_memory = some m) :
    classifyChange od nd
      = { type := "major", category := "hardware_change",
          confidence := (calculateSimilarity od nd).totalScore } := by
  have hos : ¬ od.platform ≠ nd.platform := fun hcon => hcon hplat
  have hhw : od.hardware_concurrency ≠ nd.hardware_concurrency
      ∨ od.device_memory ≠ nd.device_memory := by
    right
    rw [hmem, hmem']
    exact fun hcon => Option.noConfusion hcon
  simp only [classifyChange]
  rw [if_pos (Or.inr hhw), if_neg hos]

/-- Witness for C10 at the memory-gaining pair. -/
theorem claim10_witness :
    memoryGainOld.device_memory = none
      ∧ memoryGainNew.device_memory = some 8
      ∧ classifyChange memoryGainOld memoryGainNew
        = { type := "major", category := "hardware_change",
            confidence := (calculateSimilarity memoryGainOld memoryGainNew).totalScore } :=
  ⟨rfl, rfl,
    claim10_absent_memory_is_hardware_change memoryGainOld memoryGainNew 8 rfl rfl rfl rfl⟩

/-- C2: `classifyChange` evaluates its rules as a priority cascade — platform
difference first (major/os_change, so a pair differing in both platform and
screen still classifies os_change), else core-count or device-memory
difference (major/hardware_change), else screen width/height difference
(minor/screen_change), else same extracted browser name with different
extracted version (minor/browser_update), else IP difference
(minor/ip_change), else minor/environmental_change — and the returned
confidence always equals `calculateSimilarity(previous, current).totalScore`. -/
theorem claim2_classifyChange_cascade (od nd : Device) :
    (classifyChange od nd).confidence = (calculateSimilarity od nd).totalScore
      ∧ (od.platform ≠ nd.platform →
          (classifyChange od nd).type = "major"
            ∧ (classifyChange od nd).category = "os_change")
      ∧ (od.platform = nd.platform →
          (od.hardware_concurrency ≠ nd.hardware_concurrency
            ∨ od.device_memory ≠ nd.device_memory) →
          (classifyChange od nd).type = "major"
            ∧ (classifyChange od nd).category = "hardware_change")
      ∧ (od.platform = nd.platform →
          od.hardware_concurrency = nd.hardware_concurrency →
          od.device_memory = nd.device_memory →
          (od.screen_width ≠ nd.screen_width ∨ od.screen_height ≠ nd.screen_height) →
          (classifyChange od nd).type = "minor"
            ∧ (classifyChange od nd).category = "screen_change")
      ∧ (od.platform = nd.platform →
          od.hardware_concurrency = nd.hardware_concurrency →
          od.device_memory = nd.device_memory →
          od.screen_width = nd.screen_width → od.screen_height = nd.screen_height →
          isBrowserUpdate od.user_agent nd.user_agent = true →
          (classifyChange od nd).type = "minor"
            ∧ (classifyChange od nd).category = "browser_update")
      ∧ (od.platform = nd.platform →
          od.hardware_concurrency = nd.hardware_concurrency →
          od.device_memory = nd.device_memory →
          od.screen_width = nd.screen_width → od.screen_height = nd.screen_height →
          isBrowserUpdate od.user_agent nd.user_agent = false →
          od.ip_address ≠ nd.ip_address →
          (classifyChange od nd).type = "minor"
            ∧ (classifyChange od nd).category = "ip_change")
      ∧ (od.platform = nd.platform →
          od.hardware_concurrency = nd.hardware_concurrency →
          od.device_memory = nd.device_memory →
          od.screen_width = nd.screen_width → od.screen_height = nd.screen_height →
          isBrowserUpdate od.user_agent nd.user_agent = false →
          od.ip_address = nd.ip_address →
          (classifyChange od nd).type = "minor"
            ∧ (classifyChange od nd).category = "environmental_change")
      ∧ (∀ ou nu : String, ou ≠ "" → nu ≠ "" →
          (isBrowserUpdate (some ou) (some nu) = true ↔
            (extractBrowserInfo ou).1 = (extractBrowserInfo nu).1
              ∧ (extractBrowserInfo ou).2 ≠ (extractBrowserInfo nu).2)) := by
  refine ⟨?_, ?_, ?_, ?_, ?_, ?_, ?_, ?_⟩
  · simp only [classifyChange]
    split_ifs <;> rfl
  · intro hplat
    simp only [classifyChange]
    rw [if_pos (Or.inl hplat), if_pos hplat]
    exact ⟨rfl, rfl⟩
  · intro hplat hhw
    have hos : ¬ od.platform ≠ nd.platform := fun hcon => hcon hplat
    simp only [classifyChange]
    rw [if_pos (Or.inr hhw), if_neg hos]
    exact ⟨rfl, rfl⟩
  · intro hplat hcc hmem hscreen
    have hos : ¬ od.platform ≠ nd.platform := fun hcon => hcon hplat
    have hhw : ¬ (od.hardware_concurrency ≠ nd.hardware_concurrency
        ∨ od.device_memory ≠ nd.device_memory) := by
      rintro (hcon | hcon)
      · exact hcon hcc
      · exact hcon hmem
    simp only [classifyChange]
    rw [if_neg (by rintro (hcon | hcon); exacts [hos hcon, hhw hcon]), if_pos hscreen]
    exact ⟨rfl, rfl⟩
  · intro hplat hcc hmem hsw hsh hbu
    have hos : ¬ od.platform ≠ nd.platform := fun hcon => hcon hplat
    have hhw : ¬ (od.hardware_concurrency ≠ nd.hardware_concurrency
        ∨ od.device_memory ≠ nd.device_memory) := by
      rintro (hcon | hcon)
      · exact hcon hcc
      · exact hcon hmem
    have hscreen : ¬ (od.screen_width ≠ nd.screen_width
        ∨ od.screen_height ≠ nd.screen_height) := by
      rintro (hcon | hcon)
      · exact hcon hsw
      · exact hcon hsh
    simp only [classifyChange]
    rw [if_neg (by rintro (hcon | hcon); exacts [hos hcon, hhw hcon]),
      if_neg hscreen, if_pos hbu]
    exact ⟨rfl, rfl⟩
  · intro hplat hcc hmem hsw hsh hbu hip
    have hos : ¬ od.platform ≠ nd.platform := fun hcon => hcon hplat
    have hhw : ¬ (od.hardware_concurrency ≠ nd.hardware_concurrency
        ∨ od.device_memory ≠ nd.device_memory) := by
      rintro (hcon | hcon)
      · exact hcon hcc
      · exact hcon hmem
    have hscreen : ¬ (od.screen_width ≠ nd.screen_width
        ∨ od.screen_height ≠ nd.screen_height) := by
      rintro (hcon | hcon)
      · exact hcon hsw
      · exact hcon hsh
    simp only [classifyChange]
    rw [if_neg (by rintro (hcon | hcon); exacts [hos hcon, hhw hcon]),
      if_neg hscreen, if_neg (by rw [hbu]; exact Bool.false_ne_true), if_pos hip]
    exact ⟨rfl, rfl⟩
  · intro hplat hcc hmem hsw hsh hbu hip
    have hos : ¬ od.platform ≠ nd.platform := fun hcon => hcon hplat
    have hhw : ¬ (od.hardware_concurrency ≠ nd.hardware_concurrency
        ∨ od.device_memory ≠ nd.device_memory) := by
      rintro (hcon | hcon)
      · exact hcon hcc
      · exact hcon hmem
    have hscreen : ¬ (od.screen_width ≠ nd.screen_width
        ∨ od.screen_height ≠ nd.screen_height) := by
      rintro (hcon | hcon)
      · exact hcon hsw
      · exact hcon hsh
    simp only [classifyChange]
    rw [if_neg (by rintro (hcon | hcon); exacts [hos hcon, hhw hcon]),
      if_neg hscreen, if_neg (by rw [hbu]; exact Bool.false_ne_true),
      if_neg (fun hcon => hcon hip)]
    exact ⟨rfl, rfl⟩
  · intro ou nu hou hnu
    simp only [isBrowserUpdate, truthyStr]
    rw [if_neg (by simp [hou, hnu])]
    simp [Bool.and_eq_true, beq_iff_eq, bne_iff_ne]

/-- Witness for C2: the pair differing in both platform and screen
classifies major/os_change (rule 1 precedes rule 3), and a Chrome 119 → 120
user-agent pair satisfies the browser-update characterization. -/
theorem claim2_witness :
    osChangeOld.platform ≠ osChangeNew.platform
      ∧ osChangeOld.screen_width ≠ osChangeNew.screen_width
      ∧ (classifyChange osChangeOld osChangeNew).type = "major"
      ∧ (classifyChange osChangeOld osChangeNew).category = "os_change"
      ∧ (isBrowserUpdate (some "Chrome/119.0") (some "Chrome/120.0") = true ↔
          (extractBrowserInfo "Chrome/119.0").1 = (extractBrowserInfo "Chrome/120.0").1
            ∧ (extractBrowserInfo "Chrome/119.0").2 ≠ (extractBrowserInfo "Chrome/120.0").2) := by
  have hplat : osChangeOld.platform ≠ osChangeNew.platform := by decide
  have hsw : osChangeOld.screen_width ≠ osChangeNew.screen_width := by
    intro hcon
    exact absurd (Option.some.inj hcon) (by norm_num)
  refine ⟨hplat, hsw,
    ((claim2_classifyChange_cascade osChangeOld osChangeNew).2.1 hplat).1,
    ((claim2_classifyChange_cascade osChangeOld osChangeNew).2.1 hplat).2,
    (claim2_classifyChange_cascade osChangeOld osChangeNew).2.2.2.2.2.2.2
      "Chrome/119.0" "Chrome/120.0" (by decide) (by decide)⟩

/-- C3: `findBestMatch` returns none immediately on an empty candidate
list; when it returns a candidate, that candidate carries its similarity
against the target, its isMatch is true, its totalScore is weakly highest
over the whole list, and every earlier candidate scores strictly lower
(ties kept by the first-encountered highest, since the comparison is
strict >); and when every candidate scores below the 0.75 threshold the
result is none. -/
theorem claim3_findBestMatch_spec (targetDevice : Device) (candidates : List Device) :
    findBestMatch targetDevice [] = none
      ∧ (∀ b, findBestMatch targetDevice candidates = some b →
          b.similarity = calculateSimilarity targetDevice b.device
            ∧ b.similarity.isMatch = true
            ∧ (∃ pre post, candidates = pre ++ b.device :: post
                ∧ ∀ c ∈ pre, scoreOf targetDevice c < scoreOf targetDevice b.device)
            ∧ ∀ c ∈ candidates, scoreOf targetDevice c ≤ scoreOf targetDevice b.device)
      ∧ ((∀ c ∈ candidates, scoreOf targetDevice c < 3/4) →
          findBestMatch targetDevice candidates = none) := by
  refine ⟨rfl, ?_, ?_⟩
  · intro b hb
    exact findBestMatch_some targetDevice candidates b hb
  · intro hall
    exact findBestMatch_below_threshold targetDevice candidates hall

/-- Witness for C3: the empty list yields none, and a singleton list whose
only candidate scores 0.70 — the best available, but below the 0.75
threshold — also yields none. -/
theorem claim3_witness :
    findBestMatch score70Device [] = none
      ∧ scoreOf score70Device score70Device = 7/10
      ∧ findBestMatch score70Device [score70Device] = none := by
  have hscore : scoreOf score70Device score70Device = 7/10 := by
    rw [scoreOf_def, score70Device_self]
  refine ⟨(claim3_findBestMatch_spec score70Device [score70Device]).1, hscore, ?_⟩
  apply (claim3_findBestMatch_spec score70Device [score70Device]).2.2
  intro c hc
  rw [List.mem_singleton] at hc
  subst hc
  rw [hscore]
  norm_num

/-- C4 counterexample: on a token-matched pair with no changed fields the
changed-fields list is empty, yet `_detectDeviceChange` has already invoked
`classifyChange` (identity-service.js line 230 runs before the list is
computed) and its classification output sits in the result — refuting "the
Resolver invokes classifyChange only when the changed-fields list is
non-empty". -/
theorem claim4_counterexample :
    detectChanges sampleDevice sampleDevice = []
      ∧ (detectDeviceChange sampleDevice sampleDevice).classifyInvoked = true
      ∧ (detectDeviceChange sampleDevice sampleDevice).hasChanged = false
      ∧ (detectDeviceChange sampleDevice sampleDevice).changeType = "minor"
      ∧ (detectDeviceChange sampleDevice sampleDevice).changeCategory
          = some "environmental_change" := by
  have hdc : detectChanges sampleDevice sampleDevice = [] := by
    simp [detectChanges]
  have hclass : classifyChange sampleDevice sampleDevice
      = { type := "minor", category := "environmental_change",
          confidence := (calculateSimilarity sampleDevice sampleDevice).totalScore } := by
    simp only [classifyChange]
    rw [if_neg (by rintro (h | h | h) <;> exact h rfl),
      if_neg (by rintro (h | h) <;> exact h rfl),
      if_neg (by exact Bool.false_ne_true),
      if_neg (fun h => h rfl)]
  refine ⟨hdc, rfl, ?_, ?_, ?_⟩
  · simp [detectDeviceChange, hdc]
  · simp [detectDeviceChange, hclass]
  · simp [detectDeviceChange, hclass]

/-- C4 (amended): the non-empty result of `detectChanges` is the sole
authoritative signal for a device change in the token-matched path —
`hasChanged` is exactly its non-emptiness, and a new DeviceProfile and
ChangeEvent are produced precisely when the list is non-empty (the empty
case only touches the existing session) — but `classifyChange` is invoked
unconditionally inside `_detectDeviceChange`, before the list is computed;
its output is merely unused when the list is empty. -/
theorem claim4_detectChanges_authoritative (found : ProfileRow)
    (fpCandidates : List ProfileRow) (newDevice : Device) (newSessionId newUserId : Nat) :
    ((detectDeviceChange found.profile newDevice).hasChanged = true
        ↔ detectChanges found.profile newDevice ≠ [])
      ∧ (detectDeviceChange found.profile newDevice).classifyInvoked = true
      ∧ (detectChanges found.profile newDevice = [] →
          (identifyModel (some found) fpCandidates newDevice newSessionId newUserId).2
            = [Effect.updateSession found.device_session_id newDevice,
              Effect.updateLastSeen found.user_identity_id,
              Effect.logMatch "recognized" (some "uuid_direct") 1])
      ∧ (detectChanges found.profile newDevice = [] →
          ∀ e ∈ (identifyModel (some found) fpCandidates newDevice newSessionId newUserId).2,
            (∀ uid d, e ≠ Effect.createSession uid d)
              ∧ (∀ uid sid psid ev, e ≠ Effect.recordChange uid sid psid ev))
      ∧ (detectChanges found.profile newDevice ≠ [] →
          Effect.createSession found.user_identity_id newDevice
            ∈ (identifyModel (some found) fpCandidates newDevice newSessionId newUserId).2) := by
  have hchanged : (detectDeviceChange found.profile newDevice).hasChanged
      = decide (0 < (detectChanges found.profile newDevice).length) := by
    simp only [detectDeviceChange]
  refine ⟨?_, rfl, ?_, ?_, ?_⟩
  · rw [hchanged, decide_eq_true_iff]
    constructor
    · intro h
      exact List.ne_nil_of_length_pos h
    · intro h
      exact List.length_pos.mpr h
  · intro h
    have hfalse : (detectDeviceChange found.profile newDevice).hasChanged = false := by
      rw [hchanged, h]
      rfl
    simp only [identifyModel]
    rw [hfalse, if_neg Bool.false_ne_true]
  · intro h e he
    have hfalse : (detectDeviceChange found.profile newDevice).hasChanged = false := by
      rw [hchanged, h]
      rfl
    simp only [identifyModel] at he
    rw [hfalse, if_neg Bool.false_ne_true] at he
    simp only [List.mem_cons, List.mem_singleton] at he
    rcases he with rfl | rfl | rfl | he
    · exact ⟨fun uid d hcon => Effect.noConfusion hcon,
        fun uid sid psid ev hcon => Effect.noConfusion hcon⟩
    · exact ⟨fun uid d hcon => Effect.noConfusion hcon,
        fun uid sid psid ev hcon => Effect.noConfusion hcon⟩
    · exact ⟨fun uid d hcon => Effect.noConfusion hcon,
        fun uid sid psid ev hcon => Effect.noConfusion hcon⟩
    · cases he
  · intro h
    have htrue : (detectDeviceChange found.profile newDevice).hasChanged = true := by
      rw [hchanged, decide_eq_true_iff]
      exact List.length_pos.mpr h
    simp only [identifyModel]
    rw [htrue, if_pos rfl]
    exact List.mem_cons_self _ _

/-- Witness for C4 (amended): an unchanged token-matched request only
touches the existing session — no profile creation, no change record. -/
theorem claim4_witness :
    detectChanges tokenRow.profile sampleDevice = []
      ∧ (identifyModel (some tokenRow) [] sampleDevice 11 99).2
        = [Effect.updateSession 10 sampleDevice, Effect.updateLastSeen 1,
          Effect.logMatch "recognized" (some "uuid_direct") 1] := by
  have hdc : detectChanges tokenRow.profile sampleDevice = [] := by
    simp [detectChanges, tokenRow]
  exact ⟨hdc, (claim4_detectChanges_authoritative tokenRow [] sampleDevice 11 99).2.2.1 hdc⟩

/-- C5 counterexample: in a concrete recovery (identity 3's stored profile
matches the incoming device perfectly), the appended ChangeEvent has
change_type "device_reset" but a null change_category — the category is not
"device_reset" as claimed: "device_reset" is the classification value, and
the recovery payload passes no category key at all. -/
theorem claim5_counterexample :
    identifyByFingerprint sampleDevice [storedRow] = some (storedRow, 1)
      ∧ (identifyModel none [storedRow] sampleDevice 31 99).1.status = "recovered"
      ∧ ∃ ev, Effect.recordChange 3 31 (some 30) ev
            ∈ (identifyModel none [storedRow] sampleDevice 31 99).2
          ∧ ev.change_type = "device_reset"
          ∧ ev.change_category = none
          ∧ ev.change_category ≠ some "device_reset"
          ∧ ev.changed_fields = ["client_uuid"] := by
  refine ⟨identifyByFingerprint_sample, ?_, ?_⟩
  · simp only [identifyModel, identifyByFingerprint_sample]
  · refine ⟨ChangeEventRecord.mk "device_reset" none ["client_uuid"] 1 "device_change",
      ?_, rfl, rfl, by simp, rfl⟩
    simp only [identifyModel, identifyByFingerprint_sample]
    simp [storedRow, recordDeviceChange]

/-- C5 (amended): with an unknown client token and a fingerprint best-match,
`identify` returns status=recovered with confidence equal to the match's
totalScore, creates the new profile and session under the matched identity,
and appends a ChangeEvent whose change_type (classification) is
"device_reset", whose change_category is absent/null (not "device_reset"),
and whose changed-fields list is exactly ["client_uuid"]. -/
theorem claim5_recovery_path (fpCandidates : List ProfileRow) (newDevice : Device)
    (newSessionId newUserId : Nat) (matched : ProfileRow) (confidence : ℚ)
    (hmatch : identifyByFingerprint newDevice fpCandidates = some (matched, confidence)) :
    (identifyModel none fpCandidates newDevice newSessionId newUserId).1
        = { user_id := matched.user_identity_id
            session_id := newSessionId
            status := "recovered"
            confidence := confidence
            is_device_changed := true
            change_type := some "device_reset" }
      ∧ (identifyModel none fpCandidates newDevice newSessionId newUserId).2
        = [Effect.createSession matched.user_identity_id newDevice,
          Effect.recordChange matched.user_identity_id newSessionId
            (some matched.device_session_id)
            { change_type := "device_reset", change_category := none,
              changed_fields := ["client_uuid"], match_confidence := confidence,
              recovery_method := "device_change" },
          Effect.updateLastSeen matched.user_identity_id,
          Effect.logMatch "recovered" (some "fingerprint_match") confidence]
      ∧ (∀ best, fpCandidates.length ≠ 0 →
          findBestMatchRow newDevice fpCandidates = some best →
          identifyByFingerprint newDevice fpCandidates
            = some (best.1, best.2.totalScore)) := by
  refine ⟨?_, ?_, ?_⟩
  · simp only [identifyModel, hmatch]
  · simp only [identifyModel, hmatch]
    simp [recordDeviceChange]
  · intro best hlen hbest
    simp only [identifyByFingerprint, hbest]
    rw [if_neg hlen]

/-- Witness for C5 (amended) at the concrete recovery scenario. -/
theorem claim5_witness :
    identifyByFingerprint sampleDevice [storedRow] = some (storedRow, 1)
      ∧ (identifyModel none [storedRow] sampleDevice 31 99).1
        = { user_id := 3, session_id := 31, status := "recovered", confidence := 1,
            is_device_changed := true, change_type := some "device_reset" } :=
  ⟨identifyByFingerprint_sample,
    (claim5_recovery_path [storedRow] sampleDevice 31 99 storedRow 1
      identifyByFingerprint_sample).1⟩

/-- C6: the supersede sequence is not atomic. The four writes — clear the
old current flag, insert the new current profile, update the Identity
counters, append the ChangeEvent — are issued as separate auto-committed
queries (`_createDeviceSession` and `_recordDeviceChange` use plain `query`
with no BEGIN/COMMIT, unlike `_createNewUser`), so the crash state after the
first two writes is reachable: the new profile (session 2) is present and
current with no corresponding change record, and the state equals neither
the initial nor the final state. -/
theorem claim6_supersede_not_atomic :
    everyProfileRecorded preSupersedeState
      ∧ (2, true) ∈ (runSupersede 2 preSupersedeState (supersedeSteps.take 2)).profiles
      ∧ 2 ∉ (runSupersede 2 preSupersedeState (supersedeSteps.take 2)).changeEvents
      ∧ ¬ everyProfileRecorded (runSupersede 2 preSupersedeState (supersedeSteps.take 2))
      ∧ runSupersede 2 preSupersedeState (supersedeSteps.take 2) ≠ preSupersedeState
      ∧ runSupersede 2 preSupersedeState (supersedeSteps.take 2)
          ≠ runSupersede 2 preSupersedeState supersedeSteps := by
  refine ⟨?_, by decide, by decide, ?_, by decide, by decide⟩
  · intro p hp
    simp only [preSupersedeState, List.mem_singleton] at hp
    subst hp
    decide
  · intro hcon
    exact absurd (hcon (2, true) (by decide)) (by decide)

/-- C7 counterexample: when a persistence step fails and the best-effort
failed-status MatchLog write also fails, the error surfaced to the caller is
the audit write's, not the original — the catch block awaits `_logMatching`
before rethrowing and has no inner try/catch, so the audit failure replaces
the original error rather than being swallowed. -/
theorem claim7_counterexample :
    identifyTryCatch (Except.error "insert failed") (Except.error "audit log failed")
        = Except.error "audit log failed"
      ∧ (Except.error "audit log failed"
          : Except String (IdentifyResult × List Effect)) ≠ Except.error "insert failed" := by
  refine ⟨rfl, ?_⟩
  intro hcon
  have := Except.error.inj hcon
  simp at this

/-- C7 (amended): a persistence failure inside `identify` surfaces as a
fatal error for the request, and the failed-status MatchLog is attempted
exactly once with no retry; when that audit write succeeds the original
error is rethrown, but when the audit write itself fails its error
propagates out of the catch block and replaces the original error — the
audit failure is not swallowed. -/
theorem claim7_error_propagation (body : Except String (IdentifyResult × List Effect))
    (failLog : Except String Unit) :
    (∀ r, body = Except.ok r → identifyTryCatch body failLog = Except.ok r)
      ∧ (∀ e, body = Except.error e → failLog = Except.ok () →
          identifyTryCatch body failLog = Except.error e)
      ∧ (∀ e e2, body = Except.error e → failLog = Except.error e2 →
          identifyTryCatch body failLog = Except.error e2) := by
  refine ⟨?_, ?_, ?_⟩
  · intro r hr
    rw [hr]
    rfl
  · intro e he hl
    rw [he, hl]
    rfl
  · intro e e2 he hl
    rw [he, hl]
    rfl

/-- Witness for C7 (amended) at concrete error strings. -/
theorem claim7_witness :
    identifyTryCatch (Except.error "insert failed") (Except.ok ())
        = Except.error "insert failed"
      ∧ identifyTryCatch (Except.error "insert failed") (Except.error "audit log failed")
        = Except.error "audit log failed" :=
  ⟨(claim7_error_propagation (Except.error "insert failed") (Except.ok ())).2.1
      "insert failed" rfl rfl,
    (claim7_error_propagation (Except.error "insert failed")
        (Except.error "audit log failed")).2.2 "insert failed" "audit log failed" rfl rfl⟩

end IKY
